import Mathlib

set_option maxRecDepth 100000

set_option maxHeartbeats 1600000

/-!
Verification of `sra.py` (Search & Fetch records from NCBI's Sequence Read Archive).

The development shallowly embeds the parts of the program the claims are about:

* a backtracking matcher for the fixed set of regular expressions used by
  `SRAPackage.extract` (leftmost-match `re.search` semantics: `.` matches any
  character but newline, `\s` matches `[ \t\n\r\v\f]`, `.*?` is lazy, `\s+`/`\s*`
  are greedy, alternation and named groups as in the source patterns);
* `SRAPackage.extract` itself (field extraction with per-field defaults, the
  title fallback, the `int()`/`float()` conversions, and the run-accession
  dependent group), returning `Option` so that a `ValueError` raised by a
  failing `int()`/`float()` conversion is `none`;
* `SRAPackage.cache`/`SRAPackage.efetch` (record-cache read with all I/O errors
  swallowed, falling through to the network fetch);
* `SRAPackage.get_lineage` (taxonomy-lineage cache, modelled with the cache
  table passed as explicit state and the Entrez taxonomy service as an oracle
  function, counting network calls);
* the `retmax` clamp of `SRASearch.__init__`;
* `FilterPackages` (`build_data_frame` and `write_csv`, with the pandas
  DataFrame modelled as rows + index + columns and CSV emission modelled as the
  row lists written to each file).
-/

/-! ## Regex engine (Python `re.search` semantics for the source's patterns) -/

/-- Group captures of a successful match, keyed by group index (most recently
completed group first; each group of the source patterns participates at most
once in a match). -/
abbrev Caps := List (Nat × String)

/-- Python's `\s` character class for byte strings: `[ \t\n\r\v\f]`. -/
def isPyWs (c : Char) : Bool :=
  c = ' ' || c = '\t' || c = '\n' || c = '\r' || c = '\x0b' || c = '\x0c'

/-- Python's `.` without `re.DOTALL`: any character except a newline. -/
def isDotChar (c : Char) : Bool := c != '\n'

/-- Abstract syntax of the regular-expression fragment used by the eleven
patterns in `SRAPackage.extract`: literals, lazy `.*?`, greedy `\s*` and `\s+`,
alternation, and numbered capture groups in sequence. -/
inductive RE where
  | lit : String → RE
  | anyLazyStar : RE
  | wsGreedyStar : RE
  | wsGreedyPlus : RE
  | alt : RE → RE → RE
  | grp : Nat → RE → RE
  | seq : List RE → RE

/-- Match a literal: returns the remaining input if `cs` starts with the
literal, otherwise `none`. -/
def dropLit : List Char → List Char → Option (List Char)
  | [], cs => some cs
  | _ :: _, [] => none
  | l :: ls, c :: cs => if l = c then dropLit ls cs else none

/-- Backtracking matcher in continuation-passing style, mirroring the
backtracking order of Python's `re` engine: a lazy star tries the continuation
before consuming a character, a greedy star consumes before falling back, and
alternation tries its left branch first.  `fuel` only bounds the recursion
depth; a single match attempt decrements it at most once per pattern node plus
once per consumed character, so the fuel supplied by `fuelFor` is never
exhausted. -/
def mrun (fuel : Nat) (r : RE) (cs : List Char) (caps : Caps)
    (k : List Char → Caps → Option Caps) : Option Caps :=
  match fuel with
  | 0 => none
  | fuel + 1 =>
    match r with
    | .lit s =>
      match dropLit s.toList cs with
      | some rest => k rest caps
      | none => none
    | .anyLazyStar =>
      match k cs caps with
      | some res => some res
      | none =>
        match cs with
        | [] => none
        | c :: rest => if isDotChar c then mrun fuel .anyLazyStar rest caps k else none
    | .wsGreedyStar =>
      match cs with
      | c :: rest =>
        if isPyWs c then
          match mrun fuel .wsGreedyStar rest caps k with
          | some res => some res
          | none => k cs caps
        else k cs caps
      | [] => k cs caps
    | .wsGreedyPlus =>
      match cs with
      | c :: rest => if isPyWs c then mrun fuel .wsGreedyStar rest caps k else none
      | [] => none
    | .alt a b =>
      match mrun fuel a cs caps k with
      | some res => some res
      | none => mrun fuel b cs caps k
    | .grp n r1 =>
      mrun fuel r1 cs caps (fun rest caps2 =>
        k rest ((n, String.mk (cs.take (cs.length - rest.length))) :: caps2))
    | .seq [] => k cs caps
    | .seq (r1 :: rs) =>
      mrun fuel r1 cs caps (fun rest caps2 => mrun fuel (.seq rs) rest caps2 k)

/-- Top-level continuation: accept the match and return its captures (as in
`re.search`, the remainder of the input is irrelevant). -/
def acceptK : List Char → Caps → Option Caps := fun _ caps => some caps

/-- Scan of `re.search`: try a match at each start position from left to
right and return the captures of the first position that matches. -/
def searchGo (fuel : Nat) (r : RE) : List Char → Option Caps
  | [] => mrun fuel r [] [] acceptK
  | c :: rest =>
    match mrun fuel r (c :: rest) [] acceptK with
    | some caps => some caps
    | none => searchGo fuel r rest

/-- Recursion-depth bound for `mrun`: input length plus slack for the pattern
nodes (the largest source pattern has well under 200 nodes). -/
def fuelFor (cs : List Char) : Nat := cs.length + 200

/-- Model of `re.search(regex, record)`, returning the captures of the
leftmost match, or `none` when no position matches. -/
def reSearch (r : RE) (record : String) : Option Caps :=
  searchGo (fuelFor record.toList) r record.toList

/-- Match attempt anchored at position `p` of the record (used to state that
`reSearch` returns the match at the leftmost matching position). -/
def matchAt (r : RE) (record : String) (p : Nat) : Option Caps :=
  mrun (fuelFor record.toList) r (record.toList.drop p) [] acceptK

/-! ## The eleven extraction patterns (sra.py lines 185-197) -/

/-- Source pattern `<EXPERIMENT\s+.*?accession="(?P<accession>.*?)".*?>`. -/
def accessionRE : RE :=
  .seq [.lit "<EXPERIMENT", .wsGreedyPlus, .anyLazyStar, .lit "accession=\"",
        .grp 0 .anyLazyStar, .lit "\"", .anyLazyStar, .lit ">"]

/-- Source pattern `<EXPERIMENT\s+.*?>.*?<TITLE>(?P<title>.*?)<\/TITLE>`. -/
def titleRE : RE :=
  .seq [.lit "<EXPERIMENT", .wsGreedyPlus, .anyLazyStar, .lit ">",
        .anyLazyStar, .lit "<TITLE>", .grp 0 .anyLazyStar, .lit "</TITLE>"]

/-- Source pattern `<STUDY_TITLE>(?P<study_title>.*?)<\/STUDY_TITLE>`. -/
def studyTitleRE : RE :=
  .seq [.lit "<STUDY_TITLE>", .grp 0 .anyLazyStar, .lit "</STUDY_TITLE>"]

/-- Source pattern `<LIBRARY_STRATEGY>(?P<library_strategy>.*?)<\/LIBRARY_STRATEGY>`. -/
def libraryStrategyRE : RE :=
  .seq [.lit "<LIBRARY_STRATEGY>", .grp 0 .anyLazyStar, .lit "</LIBRARY_STRATEGY>"]

/-- Source pattern `<LIBRARY_LAYOUT>\s*<(?P<library_layout>SINGLE|PAIRED)`. -/
def libraryLayoutRE : RE :=
  .seq [.lit "<LIBRARY_LAYOUT>", .wsGreedyStar, .lit "<",
        .grp 0 (.alt (.lit "SINGLE") (.lit "PAIRED"))]

/-- Source pattern `<INSTRUMENT_MODEL>(?P<instrument_model>.*?)<\/INSTRUMENT_MODEL>`. -/
def instrumentModelRE : RE :=
  .seq [.lit "<INSTRUMENT_MODEL>", .grp 0 .anyLazyStar, .lit "</INSTRUMENT_MODEL>"]

/-- Source pattern `<TAXON_ID>(?P<taxon_id>.*?)<\/TAXON_ID>`. -/
def taxonIdRE : RE :=
  .seq [.lit "<TAXON_ID>", .grp 0 .anyLazyStar, .lit "</TAXON_ID>"]

/-- Source pattern `<SCIENTIFIC_NAME>(?P<scientific_name>.*?)<\/SCIENTIFIC_NAME>`. -/
def scientificNameRE : RE :=
  .seq [.lit "<SCIENTIFIC_NAME>", .grp 0 .anyLazyStar, .lit "</SCIENTIFIC_NAME>"]

/-- Source pattern for `run_accession`, binding five named groups (here
numbered 0-4 in source order: run_accession, total_spots, total_bases, size,
published): `<RUN\s+.*?accession="(?P<run_accession>.*?)"\s+.*?total_spots="
(?P<total_spots>.*?)"\s+.*?total_bases="(?P<total_bases>.*?)"\s+.*?size="
(?P<size>.*?)"\s+.*?published="(?P<published>.*?)"\s+.*?>`. -/
def runRE : RE :=
  .seq [.lit "<RUN", .wsGreedyPlus, .anyLazyStar, .lit "accession=\"",
        .grp 0 .anyLazyStar, .lit "\"", .wsGreedyPlus, .anyLazyStar, .lit "total_spots=\"",
        .grp 1 .anyLazyStar, .lit "\"", .wsGreedyPlus, .anyLazyStar, .lit "total_bases=\"",
        .grp 2 .anyLazyStar, .lit "\"", .wsGreedyPlus, .anyLazyStar, .lit "size=\"",
        .grp 3 .anyLazyStar, .lit "\"", .wsGreedyPlus, .anyLazyStar, .lit "published=\"",
        .grp 4 .anyLazyStar, .lit "\"", .wsGreedyPlus, .anyLazyStar, .lit ">"]

/-- Source pattern `<Statistics\s+.*?nreads="(?P<nreads>.*?)"\s+.*?>`. -/
def nreadsRE : RE :=
  .seq [.lit "<Statistics", .wsGreedyPlus, .anyLazyStar, .lit "nreads=\"",
        .grp 0 .anyLazyStar, .lit "\"", .wsGreedyPlus, .anyLazyStar, .lit ">"]

/-- Source pattern `<Read\s+.*?average="(?P<read_average>.*?)"\s+.*?\/>`. -/
def readAverageRE : RE :=
  .seq [.lit "<Read", .wsGreedyPlus, .anyLazyStar, .lit "average=\"",
        .grp 0 .anyLazyStar, .lit "\"", .wsGreedyPlus, .anyLazyStar, .lit "/>"]

/-- Value of one named group of a rule: `re.search` followed by the groupdict
lookup.  `none` exactly when the rule's pattern finds no match (the source then
assigns the field its default). -/
def capture (r : RE) (record : String) (n : Nat) : Option String :=
  (reSearch r record).bind (fun caps => caps.lookup n)

/-- The five captures of the `run_accession` rule from a single search
(the source rule binds all five groups at once, so on a match all five are
present in the groupdict). -/
def runSearch (record : String) :
    Option (String × String × String × String × String) :=
  match reSearch runRE record with
  | none => none
  | some caps =>
    match caps.lookup 0, caps.lookup 1, caps.lookup 2, caps.lookup 3, caps.lookup 4 with
    | some ra, some ts, some tb, some sz, some pub => some (ra, ts, tb, sz, pub)
    | _, _, _, _, _ => none

/-! ## Python numeric conversions used by extract -/

/-- Numeric value of a nonempty all-digit character list, `none` otherwise. -/
def natOfDigits (cs : List Char) : Option Nat :=
  match cs with
  | [] => none
  | _ => if cs.all Char.isDigit then
           some (cs.foldl (fun acc c => acc * 10 + (c.toNat - 48)) 0)
         else none

/-- Python `int(s)` on a string: surrounding whitespace stripped, optional
sign, then a nonempty digit run; anything else raises `ValueError` (`none`). -/
def pyInt (s : String) : Option Int :=
  let cs := s.toList.dropWhile isPyWs
  let cs := (cs.reverse.dropWhile isPyWs).reverse
  match cs with
  | '+' :: rest => (natOfDigits rest).map Int.ofNat
  | '-' :: rest => (natOfDigits rest).map (fun n => -(Int.ofNat n))
  | rest => (natOfDigits rest).map Int.ofNat

/-- Numeric value of a possibly empty all-digit character list (helper for
`pyFloatParse`; the emptiness side conditions are checked by the caller). -/
def digitsVal (cs : List Char) : Nat :=
  cs.foldl (fun acc c => acc * 10 + (c.toNat - 48)) 0

/-- Decimal digit count of a natural number, by a fuel-driven loop
(0 digits for 0; the fuel `n + 1` always suffices). -/
def decDigitsGo : Nat → Nat → Nat
  | 0, _ => 0
  | fuel + 1, n => if n = 0 then 0 else decDigitsGo fuel (n / 10) + 1

/-- Decimal digit count of a natural number. -/
def decDigits (n : Nat) : Nat := decDigitsGo (n + 1) n

/-- Binary digit count of a natural number, by a fuel-driven loop: 0 for 0,
otherwise one more than the count of the half. -/
def bitlenGo : Nat → Nat → Nat
  | 0, _ => 0
  | fuel + 1, n => if n = 0 then 0 else bitlenGo fuel (n / 2) + 1

/-- Binary digit count of a natural number: `2 ^ (bitlen n - 1) ≤ n < 2 ^ bitlen n`
for positive `n`. -/
def bitlen (n : Nat) : Nat := bitlenGo (n + 1) n

/-- Round `N / D` to the nearest integer, ties to even (the rounding mode of
IEEE-754 float parsing). -/
def roundHalfEven (N D : Nat) : Nat :=
  let q := N / D
  let r := N % D
  if 2 * r < D then q
  else if D < 2 * r then q + 1
  else if q % 2 = 0 then q else q + 1

/-- Value of a Python float produced by `float()` on a literal: a finite
IEEE-754 binary64 value held exactly as a signed numerator over a
power-of-two denominator, or an infinity (overflow). -/
inductive PyFloatValue where
  | finite : Int → Nat → PyFloatValue
  | inf : PyFloatValue
  | neginf : PyFloatValue
deriving DecidableEq

/-- Package a sign, mantissa and binary exponent as the finite float value
`sign * m * 2 ^ t`. -/
def mkFinite (sign : Int) (m : Nat) (t : Int) : PyFloatValue :=
  if 0 ≤ t then .finite (sign * ((m * 2 ^ t.toNat : Nat) : Int)) 1
  else .finite (sign * (m : Int)) (2 ^ (-t).toNat)

/-- Round the positive rational `N0 / D0` (both at least 1) to IEEE-754
binary64 precision, round-to-nearest ties-to-even: the result is the mantissa
and binary exponent of the nearest representable value (`none` = overflow to
infinity).  The binade exponent `e` (with `2 ^ e ≤ N0 / D0 < 2 ^ (e + 1)`) is
located from the binary digit counts, the grid step is `2 ^ (e - 52)` clamped
below at the subnormal step `2 ^ (-1074)`, and a rounded result of at least
`2 ^ 1024` overflows. -/
def roundMantissa (N0 D0 : Nat) : Option (Nat × Int) :=
  let e0 : Int := (bitlen N0 : Int) - (bitlen D0 : Int)
  let e : Int := if D0 * 2 ^ e0.toNat ≤ N0 * 2 ^ (-e0).toNat then e0 else e0 - 1
  let t : Int := max (e - 52) (-1074)
  let m := roundHalfEven (N0 * 2 ^ (-t).toNat) (D0 * 2 ^ t.toNat)
  if 0 ≤ t ∧ 2 ^ 1024 ≤ m * 2 ^ t.toNat then none
  else some (m, t)

/-- Python `float()` of a parsed decimal `sign * a * 10 ^ p`: shortcut paths
for zero, for guaranteed overflow (`p ≥ 310` puts the value above
`10 ^ 310 > 2 ^ 1024`) and for guaranteed underflow (a value below
`10 ^ (-340)` is under half the smallest subnormal, so it rounds to zero);
otherwise the exact fraction `a * 10 ^ p` is rounded by `roundMantissa`. -/
def roundDecimal (sign : Int) (a : Nat) (p : Int) : PyFloatValue :=
  if a = 0 then .finite 0 1
  else if 310 ≤ p then (if sign < 0 then .neginf else .inf)
  else if (decDigits a : Int) + p < -340 then .finite 0 1
  else
    match roundMantissa (a * 10 ^ p.toNat) (10 ^ (-p).toNat) with
    | none => if sign < 0 then .neginf else .inf
    | some mt => mkFinite sign mt.1 mt.2

/-- Exponent suffix of a float literal: optional sign, then digits and nothing
else; the result updates the power-of-ten exponent of the literal. -/
def pyFloatParseExp (sign : Int) (a : Nat) (p0 : Int) (r : List Char) :
    Option (Int × Nat × Int) :=
  let se : Int × List Char :=
    match r with
    | '+' :: r2 => (1, r2)
    | '-' :: r2 => (-1, r2)
    | r2 => (1, r2)
  let ed := se.2.takeWhile Char.isDigit
  let rest := se.2.dropWhile Char.isDigit
  if ed.isEmpty || !rest.isEmpty then none
  else some (sign, a, p0 + se.1 * (digitsVal ed : Int))

/-- Parse of a Python float literal as accepted by `float()` on decimal forms:
optional surrounding whitespace, optional sign, digits with an optional `.`
and fraction digits (at least one digit in all), and an optional `e`/`E`
exponent.  The result is the sign, the concatenated digits as a natural
number, and the power-of-ten exponent: the literal denotes
`sign * a * 10 ^ p`.  The `inf`/`nan` spellings are not parsed; on those the
source's `int(float(...))` also fails (OverflowError/ValueError), so the
composed conversion is unaffected. -/
def pyFloatParse (s : String) : Option (Int × Nat × Int) :=
  let cs := s.toList.dropWhile isPyWs
  let cs2 := (cs.reverse.dropWhile isPyWs).reverse
  let sr : Int × List Char :=
    match cs2 with
    | '+' :: rest => (1, rest)
    | '-' :: rest => (-1, rest)
    | rest => (1, rest)
  let ip := sr.2.takeWhile Char.isDigit
  let rest1 := sr.2.dropWhile Char.isDigit
  let fracRest : List Char × List Char :=
    match rest1 with
    | '.' :: r => (r.takeWhile Char.isDigit, r.dropWhile Char.isDigit)
    | r => ([], r)
  if ip.isEmpty && fracRest.1.isEmpty then none
  else
    match fracRest.2 with
    | [] => some (sr.1, digitsVal (ip ++ fracRest.1), -(fracRest.1.length : Int))
    | 'e' :: r =>
      pyFloatParseExp sr.1 (digitsVal (ip ++ fracRest.1))
        (-(fracRest.1.length : Int)) r
    | 'E' :: r =>
      pyFloatParseExp sr.1 (digitsVal (ip ++ fracRest.1))
        (-(fracRest.1.length : Int)) r
    | _ => none

/-- Python `float(s)` on decimal literals: the exact literal value rounded to
the nearest IEEE-754 binary64 value, ties to even, overflowing to an
infinity.  A finite result carries its exact value as a numerator over a
power-of-two denominator (meaning `ratOfParts`). -/
def pyFloat (s : String) : Option PyFloatValue :=
  match pyFloatParse s with
  | none => none
  | some x => some (roundDecimal x.1 x.2.1 x.2.2)

/-- Rational value denoted by a finite float (numerator over denominator). -/
def ratOfParts (p : Int × Nat) : ℚ := (p.1 : ℚ) / (p.2 : ℚ)

/-- Python `int()` applied to a finite float value: truncation toward zero,
which is T-division of the numerator by the denominator. -/
def truncFloat (p : Int × Nat) : Int := Int.tdiv p.1 (p.2 : Int)

/-- Conversion `int(fields[f])` for a numeric field: when the pattern failed,
the source stored the `int` default `0` (so `int(0) = 0`); when it matched, the
captured string goes through `int(...)`. -/
def fieldInt : Option String → Option Int
  | none => some 0
  | some s => pyInt s

/-- Conversion `int(float(fields['read_average']))`: default `0` gives
`int(float(0)) = 0`; a captured string is parsed as a float (rounded to
binary64 by `pyFloat`) and `int()` truncates the float toward zero.  `int()`
of an infinity raises OverflowError and an unparseable string makes `float()`
raise ValueError; both abort extraction (`none`). -/
def fieldReadAverage : Option String → Option Int
  | none => some 0
  | some s =>
    match pyFloat s with
    | some (.finite num den) => some (truncFloat (num, den))
    | some .inf => none
    | some .neginf => none
    | none => none

/-- Run-level group handling of sra.py lines 234-244: `run_accession` defaults
to the empty string when its rule found no match, and the four dependent
fields (`total_spots`, `total_bases`, `size`, `published`) are converted from
the same match only when the extracted `run_accession` is truthy (nonempty);
otherwise all four take their zero/empty defaults. -/
def extractRun (m : Option (String × String × String × String × String)) :
    Option (String × Int × Int × Int × String) :=
  match m with
  | none => some ("", 0, 0, 0, "")
  | some (ra, ts, tb, sz, pub) =>
    if ra = "" then some ("", 0, 0, 0, "")
    else
      (pyInt ts).bind fun total_spots =>
      (pyInt tb).bind fun total_bases =>
      (pyInt sz).bind fun size =>
      some (ra, total_spots, total_bases, size, pub)

/-- Fields of an SRA package as assigned by `SRAPackage.extract` (sra.py lines
223-244; `id`, `lineage` and the post-extraction overwrite of
`scientific_name` by `get_lineage` are outside the extractor). -/
structure SRAPackageRecord where
  accession : String
  title : String
  library_strategy : String
  library_layout : String
  instrument_model : String
  taxon_id : Int
  scientific_name : String
  nreads : Int
  read_average : Int
  run_accession : String
  total_spots : Int
  total_bases : Int
  size : Int
  published : String
deriving DecidableEq

/-- Model of `SRAPackage.extract` (sra.py lines 178-244).  Each rule is
searched independently; a rule with no match yields the type-appropriate
default (empty string for text, `0` for numeric).  `title` falls back to the
`study_title` capture when empty or missing.  The numeric conversions
(`int(...)`, `int(float(...))`) can raise `ValueError` in the source; a raise
is modelled as `none`. -/
def extract (record : String) : Option SRAPackageRecord :=
  (fieldInt (capture taxonIdRE record 0)).bind fun taxon_id =>
  (fieldInt (capture nreadsRE record 0)).bind fun nreads =>
  (fieldReadAverage (capture readAverageRE record 0)).bind fun read_average =>
  (extractRun (runSearch record)).bind fun run =>
  some {
    accession := (capture accessionRE record 0).getD "",
    title :=
      if (capture titleRE record 0).getD "" = "" then
        (capture studyTitleRE record 0).getD ""
      else (capture titleRE record 0).getD "",
    library_strategy := (capture libraryStrategyRE record 0).getD "",
    library_layout := (capture libraryLayoutRE record 0).getD "",
    instrument_model := (capture instrumentModelRE record 0).getD "",
    taxon_id := taxon_id,
    scientific_name := (capture scientificNameRE record 0).getD "",
    nreads := nreads,
    read_average := read_average,
    run_accession := run.1,
    total_spots := run.2.1,
    total_bases := run.2.2.1,
    size := run.2.2.2.1,
    published := run.2.2.2.2 }

/-! ## Search client (`SRASearch.__init__`, sra.py lines 61-65) -/

/-- Clamp of the requested maximum result count: values above the Entrez
ceiling of 100000 are replaced by 100000, anything else is kept as requested. -/
def sraSearchRetmax (retmax : Int) : Int :=
  if retmax > 100000 then 100000 else retmax

/-! ## Record cache (`SRAPackage.cache` / `SRAPackage.efetch`, sra.py 147-176) -/

/-- Exception kinds raised by the cache paths of the source: `OSError` from
`os.mkdir`, `IOError` from reading an opened file. -/
inductive PyError where
  | oserror : PyError
  | ioerror : PyError
deriving DecidableEq

/-- Outcome of the cache interaction for one package identifier: whether the
cache directory can be created when missing, whether `open` succeeds, and how
a successfully opened file behaves when read. -/
inductive CacheReadOutcome where
  | found : String → CacheReadOutcome
  | readError : CacheReadOutcome
  | absent : CacheReadOutcome
  | openError : CacheReadOutcome
  | mkdirError : CacheReadOutcome
deriving DecidableEq

/-- Model of `SRAPackage.cache` (sra.py lines 164-176).  The `os.mkdir` call
(lines 167-169) runs outside the `try`, so a directory-creation failure
(for example `.cache` existing as a regular file) propagates as a fatal
`OSError`.  The `open` call is inside a bare `try/except` returning `None` on
any exception, so a missing file and any other open-time I/O error both yield
`None` (a cache miss).  A successfully opened file object is returned; its
later `read()` behaviour travels with it. -/
def cache : CacheReadOutcome → Except PyError (Option (Except PyError String))
  | .found content => .ok (some (.ok content))
  | .readError => .ok (some (.error .ioerror))
  | .absent => .ok none
  | .openError => .ok none
  | .mkdirError => .error .oserror

/-- Model of the record-acquisition part of `SRAPackage.efetch` (sra.py lines
147-162): an exception escaping `cache()` propagates; a returned file is read
by `cached_file.read()` (line 152), which is in no `try`, so a read failure
propagates as well; `None` falls through to the Entrez network fetch (given
here as the oracle value `networkRecord`). -/
def efetch (networkRecord : String) (outcome : CacheReadOutcome) :
    Except PyError String :=
  match cache outcome with
  | .error e => .error e
  | .ok (some file) =>
    match file with
    | .ok content => .ok content
    | .error e => .error e
  | .ok none => .ok networkRecord

/-! ## Lineage cache (`SRAPackage.get_lineage`, sra.py lines 246-268) -/

/-- Reply of the Entrez taxonomy service for one taxon: `ScientificName` and
`Lineage` of the first returned record. -/
structure TaxonomyRecord where
  scientificName : String
  lineagePath : String

/-- Row of the on-disk taxa cache `.cache/taxa.csv`. -/
structure TaxaRow where
  taxon_id : Int
  lineage : String
  scientific_name : String
deriving DecidableEq

/-- Result of one `get_lineage` call: the resolved values, the taxa cache
after the call, and how many network taxonomy lookups the call performed. -/
structure LineageResult where
  scientific_name : String
  lineage : String
  cache : List TaxaRow
  network_calls : Nat
deriving DecidableEq

/-- Model of `SRAPackage.get_lineage` (sra.py lines 246-268).  The taxa cache
is the explicit state `cached_taxa` (the CSV file's rows); `net` is the Entrez
taxonomy service.  A row with the requested `taxon_id` serves the cached
values with no network call; otherwise the taxon is fetched, the lineage is
derived as `Lineage + '; ' + ScientificName`, and the new row is appended to
the cache. -/
def get_lineage (net : Int → TaxonomyRecord) (cached_taxa : List TaxaRow)
    (taxon_id : Int) : LineageResult :=
  match cached_taxa.find? (fun row => row.taxon_id == taxon_id) with
  | some row =>
    { scientific_name := row.scientific_name, lineage := row.lineage,
      cache := cached_taxa, network_calls := 0 }
  | none =>
    let taxon := net taxon_id
    let scientific_name := taxon.scientificName
    let lineage := taxon.lineagePath ++ "; " ++ scientific_name
    { scientific_name := scientific_name, lineage := lineage,
      cache := cached_taxa ++
        [{ taxon_id := taxon_id, lineage := lineage,
           scientific_name := scientific_name }],
      network_calls := 1 }

/-- Fixed taxonomy oracle used to instantiate the lineage theorem at a
concrete input. -/
def netGallus : Int → TaxonomyRecord :=
  fun _ => { scientificName := "Gallus gallus", lineagePath := "Eukaryota; Aves" }

/-! ## Result table builder (`FilterPackages`, sra.py lines 271-295) -/

/-- Value stored in one cell of a package's metadata tuple. -/
inductive MetaVal where
  | str : String → MetaVal
  | int : Int → MetaVal
deriving DecidableEq

/-- What `FilterPackages` reads from each package object: its `metadata`
tuple (whose first component is the package id, sra.py line 138) and its
`header` list. -/
structure SRAPackageMeta where
  metadata : List MetaVal
  header : List String
deriving DecidableEq

/-- Model of a pandas DataFrame as built by `build_data_frame`: row data,
row index, column labels. -/
structure PDDataFrame where
  data : List (List MetaVal)
  index : List MetaVal
  columns : List String
deriving DecidableEq

/-- First component of a metadata tuple (`package.metadata[0]`, the package
id; the source tuple always has 16 components). -/
def metaHead (m : List MetaVal) : MetaVal := m.headD (MetaVal.str "")

/-- Model of `FilterPackages.build_data_frame` (sra.py lines 280-289): one
loop over the packages appending each metadata tuple to `data` and its first
component to `index_ids`, rebinding `header` to the current package's header
each iteration, then building the DataFrame from the three accumulators
(started empty). -/
def build_data_frame (packages : List SRAPackageMeta) : PDDataFrame :=
  let res := packages.foldl
    (fun (acc : List (List MetaVal) × List MetaVal × List String) package =>
      (acc.1 ++ [package.metadata],
       acc.2.1 ++ [metaHead package.metadata],
       package.header))
    ([], [], [])
  { data := res.1, index := res.2.1, columns := res.2.2 }

/-- State of a `FilterPackages` object after `__init__` (the unused `filter`
keyword argument of the source is omitted). -/
structure FilterPackages where
  packages : List SRAPackageMeta
  data_frame : PDDataFrame
  filtered_data_frame : PDDataFrame
deriving DecidableEq

/-- Model of `FilterPackages.__init__` (sra.py lines 274-278): build the data
frame, then alias `filtered_data_frame` to it. -/
def FilterPackages.init (packages : List SRAPackageMeta) : FilterPackages :=
  let df := build_data_frame packages
  { packages := packages, data_frame := df, filtered_data_frame := df }

/-- Observable output of `FilterPackages.write_csv` (sra.py lines 291-295):
the rows written to each of the two CSV files (`to_csv(..., index=False)`
writes the data rows), the two file names, and the two counts reported by the
final print (sizes of the filtered and full indexes). -/
structure CsvOutput where
  unfiltered_path : String
  unfiltered_rows : List (List MetaVal)
  filtered_path : String
  filtered_rows : List (List MetaVal)
  filtered_count : Nat
  total_count : Nat
deriving DecidableEq

/-- Model of `FilterPackages.write_csv`. -/
def FilterPackages.write_csv (self : FilterPackages) (basename : String) :
    CsvOutput :=
  { unfiltered_path := basename ++ "_unfiltered" ++ ".csv",
    unfiltered_rows := self.data_frame.data,
    filtered_path := basename ++ ".csv",
    filtered_rows := self.filtered_data_frame.data,
    filtered_count := self.filtered_data_frame.index.length,
    total_count := self.data_frame.index.length }

/-! ## Helper lemmas -/

/-- Inversion of a successful `extract`: the three numeric conversions and the
run-group handling all succeeded, and the record is the one assembled from
their results and the text captures. -/
theorem extract_eq_some_elim {record : String} {r : SRAPackageRecord}
    (h : extract record = some r) :
    ∃ taxon_id nreads read_average run,
      fieldInt (capture taxonIdRE record 0) = some taxon_id ∧
      fieldInt (capture nreadsRE record 0) = some nreads ∧
      fieldReadAverage (capture readAverageRE record 0) = some read_average ∧
      extractRun (runSearch record) = some run ∧
      r = { accession := (capture accessionRE record 0).getD "",
            title :=
              if (capture titleRE record 0).getD "" = "" then
                (capture studyTitleRE record 0).getD ""
              else (capture titleRE record 0).getD "",
            library_strategy := (capture libraryStrategyRE record 0).getD "",
            library_layout := (capture libraryLayoutRE record 0).getD "",
            instrument_model := (capture instrumentModelRE record 0).getD "",
            taxon_id := taxon_id,
            scientific_name := (capture scientificNameRE record 0).getD "",
            nreads := nreads,
            read_average := read_average,
            run_accession := run.1,
            total_spots := run.2.1,
            total_bases := run.2.2.1,
            size := run.2.2.2.1,
            published := run.2.2.2.2 } := by
  unfold extract at h
  simp only [Option.bind_eq_some] at h
  obtain ⟨ti, hti, n, hn, ra, hra, run, hrun, hr⟩ := h
  exact ⟨ti, n, ra, run, hti, hn, hra, hrun, by
    cases hr
    rfl⟩

/-! ## C5: title falls back to study_title -/

/-- C5.  For every raw input where the primary title pattern yields no match
or an empty value, the extracted title equals the value extracted by the
`study_title` rule (empty-string default included); the concrete
empty-`<TITLE>`-with-`<STUDY_TITLE>Foo</STUDY_TITLE>` scenario is instantiated
in the witness. -/
theorem extract_title_fallback (record : String) (r : SRAPackageRecord)
    (h : extract record = some r)
    (ht : capture titleRE record 0 = none ∨ capture titleRE record 0 = some "") :
    r.title = (capture studyTitleRE record 0).getD "" := by
  obtain ⟨ti, n, ra, run, _, _, _, _, hr⟩ := extract_eq_some_elim h
  subst hr
  rcases ht with ht | ht <;> simp [ht]

/-- Witness for C5 at the spec's scenario: a body with an empty `<TITLE>` and
`<STUDY_TITLE>Foo</STUDY_TITLE>` yields title `"Foo"`. -/
theorem extract_title_fallback_witness :
    ("Foo" : String) =
      (capture studyTitleRE
        "<EXPERIMENT alias=\"x\"><TITLE></TITLE><STUDY_TITLE>Foo</STUDY_TITLE>" 0).getD "" :=
  extract_title_fallback
    "<EXPERIMENT alias=\"x\"><TITLE></TITLE><STUDY_TITLE>Foo</STUDY_TITLE>"
    { accession := "", title := "Foo", library_strategy := "", library_layout := "",
      instrument_model := "", taxon_id := 0, scientific_name := "", nreads := 0,
      read_average := 0, run_accession := "", total_spots := 0, total_bases := 0,
      size := 0, published := "" }
    (by decide) (Or.inr (by decide))

/-! ## C2: run-level fields populated iff run_accession nonempty -/

/-- C2.  The run-level fields `total_spots`, `total_bases`, `size`, `published`
are populated by `extract` exactly when a nonempty `run_accession` was
extracted: with an empty `run_accession` all four take their zero/empty
defaults together, and with a nonempty one all four come from the captures of
the same single match of the run rule. -/
theorem extract_run_group_iff (record : String) (r : SRAPackageRecord)
    (h : extract record = some r) :
    (r.run_accession = "" →
      r.total_spots = 0 ∧ r.total_bases = 0 ∧ r.size = 0 ∧ r.published = "") ∧
    (r.run_accession ≠ "" →
      ∃ ts tb sz, runSearch record = some (r.run_accession, ts, tb, sz, r.published) ∧
        pyInt ts = some r.total_spots ∧ pyInt tb = some r.total_bases ∧
        pyInt sz = some r.size) := by
  obtain ⟨ti, n, ra, run, _, _, _, hrun, hr⟩ := extract_eq_some_elim h
  subst hr
  cases hm : runSearch record with
  | none =>
    rw [hm] at hrun
    simp only [extractRun] at hrun
    obtain rfl := (Option.some.inj hrun).symm
    exact ⟨fun _ => ⟨rfl, rfl, rfl, rfl⟩, fun hne => absurd rfl hne⟩
  | some c =>
    obtain ⟨ra0, ts, tb, sz, pub⟩ := c
    rw [hm] at hrun
    simp only [extractRun] at hrun
    by_cases hra0 : ra0 = ""
    · rw [if_pos hra0] at hrun
      obtain rfl := (Option.some.inj hrun).symm
      exact ⟨fun _ => ⟨rfl, rfl, rfl, rfl⟩, fun hne => absurd rfl hne⟩
    · rw [if_neg hra0] at hrun
      simp only [Option.bind_eq_some] at hrun
      obtain ⟨ts1, hts, tb1, htb, sz1, hsz, hrun⟩ := hrun
      obtain rfl := (Option.some.inj hrun).symm
      exact ⟨fun he => absurd he hra0, fun _ => ⟨ts, tb, sz, rfl, hts, htb, hsz⟩⟩

/-- Witness for C2 at a record with a complete `<RUN>` element: the extracted
`run_accession` is `"SRR1"` and the four run-level fields carry the matched
values. -/
theorem extract_run_group_iff_witness :
    (("SRR1" : String) = "" → (10 : Int) = 0 ∧ (100 : Int) = 0 ∧ (5 : Int) = 0 ∧
      ("2016" : String) = "") ∧
    (("SRR1" : String) ≠ "" →
      ∃ ts tb sz,
        runSearch
          "<RUN accession=\"SRR1\" total_spots=\"10\" total_bases=\"100\" size=\"5\" published=\"2016\" >" =
          some ("SRR1", ts, tb, sz, "2016") ∧
        pyInt ts = some 10 ∧ pyInt tb = some 100 ∧ pyInt sz = some 5) :=
  extract_run_group_iff
    "<RUN accession=\"SRR1\" total_spots=\"10\" total_bases=\"100\" size=\"5\" published=\"2016\" >"
    { accession := "", title := "", library_strategy := "", library_layout := "",
      instrument_model := "", taxon_id := 0, scientific_name := "", nreads := 0,
      read_average := 0, run_accession := "SRR1", total_spots := 10, total_bases := 100,
      size := 5, published := "2016" }
    (by decide)

/-! ## C7: retmax clamp -/

/-- C7.  The effective maximum-results bound is 100000 when the request
exceeds 100000 and the requested value otherwise; in all cases it is at most
100000. -/
theorem sraSearchRetmax_clamp (retmax : Int) :
    (100000 < retmax → sraSearchRetmax retmax = 100000) ∧
    (retmax ≤ 100000 → sraSearchRetmax retmax = retmax) ∧
    sraSearchRetmax retmax ≤ 100000 := by
  unfold sraSearchRetmax
  split <;> refine ⟨fun h => ?_, fun h => ?_, ?_⟩ <;> omega

/-- Witness for C7: requesting 200000 yields 100000, and requesting 50 yields
50. -/
theorem sraSearchRetmax_clamp_witness :
    sraSearchRetmax 200000 = 100000 ∧ sraSearchRetmax 50 = 50 :=
  ⟨(sraSearchRetmax_clamp 200000).1 (by decide),
   (sraSearchRetmax_clamp 50).2.1 (by decide)⟩

/-! ## C4: cache read errors -/

/-- C4 counterexample.  The claim that no cache-read failure is ever
propagated as fatal fails on the code: when the cache file opens but its
`read()` raises an I/O error, the error propagates to the caller —
`cached_file.read()` at sra.py line 152 is in no `try` — instead of falling
through to the network fetch. -/
theorem cache_read_error_fatal :
    efetch "NETWORK" CacheReadOutcome.readError =
      Except.error PyError.ioerror :=
  rfl

/-- C4 (amended).  An I/O error raised while opening the per-package cache
file behaves exactly like an absent file: the bare `except` swallows it,
`cache` returns `None`, and the resolver falls through to the network fetch
with no error surfaced.  The two cache failure modes outside the `try` remain
fatal: a cache-directory creation failure propagates `OSError` (os.mkdir,
sra.py line 169), and a `read()` failure on a successfully opened cache file
propagates `IOError` (sra.py line 152). -/
theorem cache_open_error_is_miss (networkRecord : String) :
    cache CacheReadOutcome.openError = Except.ok none ∧
    cache CacheReadOutcome.openError = cache CacheReadOutcome.absent ∧
    efetch networkRecord CacheReadOutcome.openError =
      Except.ok networkRecord ∧
    efetch networkRecord CacheReadOutcome.openError =
      efetch networkRecord CacheReadOutcome.absent ∧
    efetch networkRecord CacheReadOutcome.mkdirError =
      Except.error PyError.oserror ∧
    efetch networkRecord CacheReadOutcome.readError =
      Except.error PyError.ioerror :=
  ⟨rfl, rfl, rfl, rfl, rfl, rfl⟩

/-! ## C9: freshly built filter table is unfiltered -/

/-- C9.  Immediately after `FilterPackages.__init__` the filtered table equals
the unfiltered table, so `write_csv` emits the same rows to
`<basename>_unfiltered.csv` and `<basename>.csv` and reports equal filtered
and total counts. -/
theorem filter_packages_init_unfiltered (packages : List SRAPackageMeta)
    (basename : String) :
    (FilterPackages.init packages).filtered_data_frame =
      (FilterPackages.init packages).data_frame ∧
    ((FilterPackages.init packages).write_csv basename).filtered_rows =
      ((FilterPackages.init packages).write_csv basename).unfiltered_rows ∧
    ((FilterPackages.init packages).write_csv basename).filtered_count =
      ((FilterPackages.init packages).write_csv basename).total_count :=
  ⟨rfl, rfl, rfl⟩

/-! ## C10: shape of the built data frame -/

/-- Unfolding of the accumulator loop of `build_data_frame`, for any starting
accumulator. -/
theorem build_data_frame_foldl (packages : List SRAPackageMeta) :
    ∀ (d : List (List MetaVal)) (i : List MetaVal) (h : List String),
      packages.foldl
        (fun (acc : List (List MetaVal) × List MetaVal × List String) package =>
          (acc.1 ++ [package.metadata],
           acc.2.1 ++ [metaHead package.metadata],
           package.header))
        (d, i, h) =
      (d ++ packages.map (fun p => p.metadata),
       i ++ packages.map (fun p => metaHead p.metadata),
       (packages.map (fun p => p.header)).getLastD h) := by
  induction packages with
  | nil => intro d i h; simp
  | cons p t ih =>
    intro d i h
    rw [List.foldl_cons, ih]
    simp only [List.map_cons, List.getLastD_cons, List.append_assoc,
      List.singleton_append]

/-- C10.  The built table has exactly one row per package in input order, its
index holds each package's identifier (the first component of its metadata
tuple), its columns are the header of the last package, and the empty package
sequence yields a table with no rows and no columns. -/
theorem build_data_frame_spec (packages : List SRAPackageMeta) :
    build_data_frame packages =
      { data := packages.map (fun p => p.metadata),
        index := packages.map (fun p => metaHead p.metadata),
        columns := (packages.map (fun p => p.header)).getLastD [] } := by
  unfold build_data_frame
  rw [build_data_frame_foldl packages [] [] []]
  simp

/-! ## C3: lineage cache idempotence -/

/-- Appending an element satisfying the predicate to a list on which `find?`
fails makes `find?` return that element. -/
theorem find?_append_singleton {α : Type} (p : α → Bool) (l : List α) (a : α)
    (hl : l.find? p = none) (ha : p a = true) :
    (l ++ [a]).find? p = some a := by
  induction l with
  | nil => simp [List.find?, ha]
  | cons b t ih =>
    rw [List.find?_cons] at hl
    cases hpb : p b with
    | true => rw [hpb] at hl; cases hl
    | false =>
      rw [hpb] at hl
      rw [List.cons_append, List.find?_cons, hpb]
      exact ih hl

/-- C3.  Resolving a taxon identifier that is not yet cached performs exactly
one network taxonomy lookup, derives the lineage as the external lineage path
plus `"; "` plus the scientific name, and appends the new entry to the cache;
resolving the same identifier again returns identical values from the cache
with zero network calls and leaves the cache unchanged. -/
theorem get_lineage_cache_idempotent (net : Int → TaxonomyRecord)
    (cached_taxa : List TaxaRow) (taxon_id : Int)
    (hmiss : cached_taxa.find? (fun row => row.taxon_id == taxon_id) = none) :
    (get_lineage net cached_taxa taxon_id).network_calls = 1 ∧
    (get_lineage net cached_taxa taxon_id).scientific_name =
      (net taxon_id).scientificName ∧
    (get_lineage net cached_taxa taxon_id).lineage =
      (net taxon_id).lineagePath ++ "; " ++ (net taxon_id).scientificName ∧
    (get_lineage net cached_taxa taxon_id).cache =
      cached_taxa ++
        [{ taxon_id := taxon_id,
           lineage := (get_lineage net cached_taxa taxon_id).lineage,
           scientific_name := (get_lineage net cached_taxa taxon_id).scientific_name }] ∧
    (get_lineage net (get_lineage net cached_taxa taxon_id).cache taxon_id).network_calls
      = 0 ∧
    (get_lineage net (get_lineage net cached_taxa taxon_id).cache taxon_id).scientific_name
      = (get_lineage net cached_taxa taxon_id).scientific_name ∧
    (get_lineage net (get_lineage net cached_taxa taxon_id).cache taxon_id).lineage
      = (get_lineage net cached_taxa taxon_id).lineage ∧
    (get_lineage net (get_lineage net cached_taxa taxon_id).cache taxon_id).cache
      = (get_lineage net cached_taxa taxon_id).cache := by
  have hfound :
      ((cached_taxa ++
        [{ taxon_id := taxon_id,
           lineage := (net taxon_id).lineagePath ++ "; " ++ (net taxon_id).scientificName,
           scientific_name := (net taxon_id).scientificName : TaxaRow }]).find?
        (fun row => row.taxon_id == taxon_id)) =
      some { taxon_id := taxon_id,
             lineage := (net taxon_id).lineagePath ++ "; " ++ (net taxon_id).scientificName,
             scientific_name := (net taxon_id).scientificName } :=
    find?_append_singleton _ _ _ hmiss (by simp)
  simp [get_lineage, hmiss, hfound]

/-- Witness for C3 at a concrete oracle, empty cache, and taxon 9031. -/
theorem get_lineage_cache_idempotent_witness :
    (get_lineage netGallus [] 9031).network_calls = 1 ∧
    (get_lineage netGallus [] 9031).scientific_name = (netGallus 9031).scientificName ∧
    (get_lineage netGallus [] 9031).lineage =
      (netGallus 9031).lineagePath ++ "; " ++ (netGallus 9031).scientificName ∧
    (get_lineage netGallus [] 9031).cache =
      [{ taxon_id := 9031,
         lineage := (get_lineage netGallus [] 9031).lineage,
         scientific_name := (get_lineage netGallus [] 9031).scientific_name }] ∧
    (get_lineage netGallus (get_lineage netGallus [] 9031).cache 9031).network_calls = 0 ∧
    (get_lineage netGallus (get_lineage netGallus [] 9031).cache 9031).scientific_name =
      (get_lineage netGallus [] 9031).scientific_name ∧
    (get_lineage netGallus (get_lineage netGallus [] 9031).cache 9031).lineage =
      (get_lineage netGallus [] 9031).lineage ∧
    (get_lineage netGallus (get_lineage netGallus [] 9031).cache 9031).cache =
      (get_lineage netGallus [] 9031).cache :=
  get_lineage_cache_idempotent netGallus [] 9031 (by decide)

/-! ## C6: read_average is convert-then-truncate -/

/-- A finite value built by `mkFinite` has a positive denominator. -/
theorem mkFinite_den_pos (sign : Int) (m : Nat) (t : Int) (num : Int) (den : Nat)
    (h : mkFinite sign m t = PyFloatValue.finite num den) : 0 < den := by
  unfold mkFinite at h
  split at h
  · injection h with h1 h2
    omega
  · injection h with h1 h2
    subst h2
    exact pow_pos (by norm_num) _

/-- A finite value produced by `roundDecimal` has a positive denominator. -/
theorem roundDecimal_den_pos (sign : Int) (a : Nat) (p : Int) (num : Int)
    (den : Nat) (h : roundDecimal sign a p = PyFloatValue.finite num den) :
    0 < den := by
  unfold roundDecimal at h
  split at h
  · injection h with h1 h2
    omega
  · split at h
    · split at h <;> cases h
    · split at h
      · injection h with h1 h2
        omega
      · split at h
        · split at h <;> cases h
        · exact mkFinite_den_pos _ _ _ _ _ h

/-- A finite value produced by `pyFloat` has a positive denominator. -/
theorem pyFloat_finite_den_pos {s : String} {num : Int} {den : Nat}
    (h : pyFloat s = some (PyFloatValue.finite num den)) : 0 < den := by
  unfold pyFloat at h
  split at h
  · cases h
  · exact roundDecimal_den_pos _ _ _ _ _ (Option.some.inj h)

/-- Truncation toward zero of an exact fraction with positive denominator:
the result is within one of the true value and never farther from zero. -/
theorem truncFloat_bounds (n : Int) (d : Nat) (hd : 0 < d) :
    ((0 : ℚ) ≤ (n : ℚ) / (d : ℚ) →
      ((Int.tdiv n (d : Int) : Int) : ℚ) ≤ (n : ℚ) / (d : ℚ) ∧
      (n : ℚ) / (d : ℚ) - 1 < ((Int.tdiv n (d : Int) : Int) : ℚ)) ∧
    ((n : ℚ) / (d : ℚ) < 0 →
      (n : ℚ) / (d : ℚ) ≤ ((Int.tdiv n (d : Int) : Int) : ℚ) ∧
      ((Int.tdiv n (d : Int) : Int) : ℚ) < (n : ℚ) / (d : ℚ) + 1) ∧
    |((Int.tdiv n (d : Int) : Int) : ℚ)| ≤ |(n : ℚ) / (d : ℚ)| := by
  have hdq : (0 : ℚ) < (d : ℚ) := by exact_mod_cast hd
  by_cases hn : 0 ≤ n
  · have hq : (0 : ℚ) ≤ (n : ℚ) / (d : ℚ) :=
      div_nonneg (by exact_mod_cast hn) hdq.le
    have ht : Int.tdiv n (d : Int) = ⌊(n : ℚ) / (d : ℚ)⌋ := by
      rw [Int.tdiv_eq_ediv hn (by exact_mod_cast Nat.zero_le d)]
      exact (Rat.floor_intCast_div_natCast n d).symm
    rw [ht]
    refine ⟨fun _ => ⟨Int.floor_le _, Int.sub_one_lt_floor _⟩,
            fun hq0 => absurd hq0 (not_lt.mpr hq), ?_⟩
    rw [abs_of_nonneg hq,
        abs_of_nonneg (by exact_mod_cast Int.floor_nonneg.mpr hq : (0 : ℚ) ≤ _)]
    exact Int.floor_le _
  · push_neg at hn
    have hnq : (n : ℚ) < 0 := by exact_mod_cast hn
    have hq : (n : ℚ) / (d : ℚ) < 0 := div_neg_of_neg_of_pos hnq hdq
    have ht : Int.tdiv n (d : Int) = ⌈(n : ℚ) / (d : ℚ)⌉ := by
      have h1 : Int.tdiv n (d : Int) = -(Int.tdiv (-n) (d : Int)) := by
        rw [← Int.neg_tdiv, neg_neg]
      rw [h1, Int.tdiv_eq_ediv (by omega) (by exact_mod_cast Nat.zero_le d),
          ← Rat.floor_intCast_div_natCast (-n) d]
      have heq : ((-n : ℤ) : ℚ) / (d : ℚ) = -((n : ℚ) / (d : ℚ)) := by
        push_cast
        ring
      rw [heq]
      rfl
    rw [ht]
    have hc0 : ⌈(n : ℚ) / (d : ℚ)⌉ ≤ 0 := Int.ceil_le.mpr (by exact_mod_cast hq.le)
    refine ⟨fun hq0 => absurd hq (not_lt.mpr hq0),
            fun _ => ⟨Int.le_ceil _, Int.ceil_lt_add_one _⟩, ?_⟩
    rw [abs_of_nonpos hq.le,
        abs_of_nonpos (by exact_mod_cast hc0 :
          ((⌈(n : ℚ) / (d : ℚ)⌉ : Int) : ℚ) ≤ 0)]
    exact neg_le_neg (Int.le_ceil _)

/-- Fidelity check of the float model: a seventeen-nines literal rounds up to
the binary64 value 121.0 before `int()` truncates, exactly as in the source
(`int(float('120.99999999999999999')) == 121`). -/
theorem fieldReadAverage_rounds_before_truncation :
    fieldReadAverage (some "120.99999999999999999") = some 121 := by decide

/-- Fidelity check of the float model: exponent forms are accepted as by
`float()` (`int(float('1.5e3')) == 1500`). -/
theorem fieldReadAverage_exponent_form :
    fieldReadAverage (some "1.5e3") = some 1500 := by decide

/-- C6.  When the read_average rule captures a decimal literal, the extracted
`read_average` is the captured value converted to a floating value — the
IEEE-754 binary64 nearest the literal, whose exact value `pyFloat` reports as
`num / den` — and then truncated toward zero by `int()`: at most the float's
value when it is nonnegative (so the literal `120.9` yields `120`, never
`121`), at least it when negative, within one of it, and never larger in
absolute value. -/
theorem extract_read_average_truncates (record : String) (r : SRAPackageRecord)
    (s : String) (num : Int) (den : Nat)
    (h : extract record = some r)
    (hcap : capture readAverageRE record 0 = some s)
    (hf : pyFloat s = some (PyFloatValue.finite num den)) :
    (0 ≤ ratOfParts (num, den) →
      (r.read_average : ℚ) ≤ ratOfParts (num, den) ∧
      ratOfParts (num, den) - 1 < (r.read_average : ℚ)) ∧
    (ratOfParts (num, den) < 0 →
      ratOfParts (num, den) ≤ (r.read_average : ℚ) ∧
      (r.read_average : ℚ) < ratOfParts (num, den) + 1) ∧
    |(r.read_average : ℚ)| ≤ |ratOfParts (num, den)| := by
  obtain ⟨ti, n, ra, run, hti, hn, hra, hrun, hr⟩ := extract_eq_some_elim h
  have hra2 : ra = truncFloat (num, den) := by
    rw [hcap] at hra
    simp only [fieldReadAverage, hf] at hra
    exact (Option.some.inj hra).symm
  have hval : r.read_average = truncFloat (num, den) := by
    rw [hr]
    exact hra2
  rw [hval]
  exact truncFloat_bounds num den (pyFloat_finite_den_pos hf)

/-- Witness for C6 at the capture `"120.9"`: `float('120.9')` is the double
`8507581171079578 / 2 ^ 46` (120.90000000000000568…) and the extracted
read_average is its truncation 120 — truncated, not rounded to 121. -/
theorem extract_read_average_truncates_witness :
    (0 ≤ ratOfParts (8507581171079578, 70368744177664) →
      ((120 : Int) : ℚ) ≤ ratOfParts (8507581171079578, 70368744177664) ∧
      ratOfParts (8507581171079578, 70368744177664) - 1 < ((120 : Int) : ℚ)) ∧
    (ratOfParts (8507581171079578, 70368744177664) < 0 →
      ratOfParts (8507581171079578, 70368744177664) ≤ ((120 : Int) : ℚ) ∧
      ((120 : Int) : ℚ) < ratOfParts (8507581171079578, 70368744177664) + 1) ∧
    |((120 : Int) : ℚ)| ≤ |ratOfParts (8507581171079578, 70368744177664)| :=
  extract_read_average_truncates
    "<Read index=\"0\" average=\"120.9\" count=\"5\"/>"
    { accession := "", title := "", library_strategy := "", library_layout := "",
      instrument_model := "", taxon_id := 0, scientific_name := "", nreads := 0,
      read_average := 120, run_accession := "", total_spots := 0, total_bases := 0,
      size := 0, published := "" }
    "120.9" 8507581171079578 70368744177664 (by decide) (by decide) (by decide)

/-! ## C8: only the first match of each pattern is used -/

/-- Leftmost-match property of the `re.search` scan: a successful search
returns the captures of the match attempt at the first matching position, and
every earlier position admits no match at all. -/
theorem searchGo_leftmost (fuel : Nat) (r : RE) :
    ∀ (cs : List Char) (caps : Caps), searchGo fuel r cs = some caps →
      ∃ p, mrun fuel r (cs.drop p) [] acceptK = some caps ∧
        ∀ q, q < p → mrun fuel r (cs.drop q) [] acceptK = none := by
  intro cs
  induction cs with
  | nil =>
    intro caps h
    exact ⟨0, h, fun q hq => absurd hq (Nat.not_lt_zero q)⟩
  | cons c rest ih =>
    intro caps h
    unfold searchGo at h
    split at h
    next caps0 heq =>
      obtain rfl := Option.some.inj h
      exact ⟨0, heq, fun q hq => absurd hq (Nat.not_lt_zero q)⟩
    next heq =>
      obtain ⟨p, h1, h2⟩ := ih caps h
      refine ⟨p + 1, ?_, ?_⟩
      · simpa using h1
      · intro q hq
        match q with
        | 0 => simpa using heq
        | q + 1 => simpa using h2 q (Nat.lt_of_succ_lt_succ hq)

/-- C8.  For each of the three repeatable-element rules used by `extract`
(the run rule feeding `run_accession` and its dependent group, the
`Statistics` rule feeding `nreads`, and the `Read` rule feeding
`read_average`), the captures returned by the search — the very ones
`extract` converts and stores — come from the match at the leftmost matching
position of the text, and no earlier position matches; any later occurrence of
the element plays no part in the result. -/
theorem extract_uses_first_match (re : RE)
    (_hre : re = runRE ∨ re = nreadsRE ∨ re = readAverageRE)
    (record : String) (caps : Caps)
    (h : reSearch re record = some caps) :
    ∃ p, matchAt re record p = some caps ∧
      ∀ q, q < p → matchAt re record q = none :=
  searchGo_leftmost (fuelFor record.toList) re record.toList caps h

/-- Witness for C8 at a record with two complete `<RUN>` elements: the
returned captures are exactly those of the first element. -/
theorem extract_uses_first_match_witness :
    ∃ p, matchAt runRE
        "<RUN accession=\"A1\" total_spots=\"1\" total_bases=\"2\" size=\"3\" published=\"p1\" x=\"y\"><RUN accession=\"A2\" total_spots=\"4\" total_bases=\"5\" size=\"6\" published=\"p2\" x=\"y\">"
        p = some [(4, "p1"), (3, "3"), (2, "2"), (1, "1"), (0, "A1")] ∧
      ∀ q, q < p → matchAt runRE
        "<RUN accession=\"A1\" total_spots=\"1\" total_bases=\"2\" size=\"3\" published=\"p1\" x=\"y\"><RUN accession=\"A2\" total_spots=\"4\" total_bases=\"5\" size=\"6\" published=\"p2\" x=\"y\">"
        q = none :=
  extract_uses_first_match runRE (Or.inl rfl)
    "<RUN accession=\"A1\" total_spots=\"1\" total_bases=\"2\" size=\"3\" published=\"p1\" x=\"y\"><RUN accession=\"A2\" total_spots=\"4\" total_bases=\"5\" size=\"6\" published=\"p2\" x=\"y\">"
    [(4, "p1"), (3, "3"), (2, "2"), (1, "1"), (0, "A1")] (by decide)

/-! ## C1: totality of extract -/

/-- C1 counterexample.  The claim that extraction never aborts fails: on a raw
input whose `<TAXON_ID>` element holds non-numeric text, the matched capture
reaches `int(fields['taxon_id'])`, which raises `ValueError` (modelled as
`none`), so no record is produced. -/
theorem extract_total_claim_false :
    extract "<TAXON_ID>x</TAXON_ID>" = none := by decide

/-- C1 (amended).  Extraction succeeds — producing a complete record in one
step — whenever every numeric conversion applied to a matched capture
succeeds (the `taxon_id` and `nreads` captures parse as integers, the
`read_average` capture parses as a decimal literal, and, when the run rule
matched with a nonempty accession, the `total_spots`/`total_bases`/`size`
captures parse as integers; unmatched numeric rules convert their `0` default
and always succeed).  In the produced record, every field whose pattern found
no match holds its deterministic default: the empty string for text fields,
`0` for numeric fields, and the whole dependent run group together. -/
theorem extract_total_amended (record : String)
    (h1 : (fieldInt (capture taxonIdRE record 0)).isSome = true)
    (h2 : (fieldInt (capture nreadsRE record 0)).isSome = true)
    (h3 : (fieldReadAverage (capture readAverageRE record 0)).isSome = true)
    (h4 : (extractRun (runSearch record)).isSome = true) :
    ∃ r, extract record = some r ∧
      (capture accessionRE record 0 = none → r.accession = "") ∧
      (capture titleRE record 0 = none → capture studyTitleRE record 0 = none →
        r.title = "") ∧
      (capture libraryStrategyRE record 0 = none → r.library_strategy = "") ∧
      (capture libraryLayoutRE record 0 = none → r.library_layout = "") ∧
      (capture instrumentModelRE record 0 = none → r.instrument_model = "") ∧
      (capture taxonIdRE record 0 = none → r.taxon_id = 0) ∧
      (capture scientificNameRE record 0 = none → r.scientific_name = "") ∧
      (capture nreadsRE record 0 = none → r.nreads = 0) ∧
      (capture readAverageRE record 0 = none → r.read_average = 0) ∧
      (runSearch record = none →
        r.run_accession = "" ∧ r.total_spots = 0 ∧ r.total_bases = 0 ∧
        r.size = 0 ∧ r.published = "") := by
  obtain ⟨ti, hti⟩ := Option.isSome_iff_exists.mp h1
  obtain ⟨n, hn⟩ := Option.isSome_iff_exists.mp h2
  obtain ⟨ra, hra⟩ := Option.isSome_iff_exists.mp h3
  obtain ⟨run, hrun⟩ := Option.isSome_iff_exists.mp h4
  refine ⟨{ accession := (capture accessionRE record 0).getD "",
            title :=
              if (capture titleRE record 0).getD "" = "" then
                (capture studyTitleRE record 0).getD ""
              else (capture titleRE record 0).getD "",
            library_strategy := (capture libraryStrategyRE record 0).getD "",
            library_layout := (capture libraryLayoutRE record 0).getD "",
            instrument_model := (capture instrumentModelRE record 0).getD "",
            taxon_id := ti,
            scientific_name := (capture scientificNameRE record 0).getD "",
            nreads := n,
            read_average := ra,
            run_accession := run.1,
            total_spots := run.2.1,
            total_bases := run.2.2.1,
            size := run.2.2.2.1,
            published := run.2.2.2.2 },
          ?_, ?_, ?_, ?_, ?_, ?_, ?_, ?_, ?_, ?_, ?_⟩
  · unfold extract
    rw [hti, hn, hra, hrun]
    rfl
  · intro hc
    simp [hc]
  · intro hc1 hc2
    simp [hc1, hc2]
  · intro hc
    simp [hc]
  · intro hc
    simp [hc]
  · intro hc
    simp [hc]
  · intro hc
    rw [hc] at hti
    simp only [fieldInt, Option.some.injEq] at hti
    exact hti.symm
  · intro hc
    simp [hc]
  · intro hc
    rw [hc] at hn
    simp only [fieldInt, Option.some.injEq] at hn
    exact hn.symm
  · intro hc
    rw [hc] at hra
    simp only [fieldReadAverage, Option.some.injEq] at hra
    exact hra.symm
  · intro hc
    rw [hc] at hrun
    simp only [extractRun, Option.some.injEq] at hrun
    obtain rfl := hrun.symm
    exact ⟨rfl, rfl, rfl, rfl, rfl⟩

/-- Witness for C1 (amended) at the empty raw input: no rule matches, the
conversion hypotheses hold, and every field of the produced record is
default-valued. -/
theorem extract_total_amended_witness :
    ∃ r, extract "" = some r ∧
      (capture accessionRE "" 0 = none → r.accession = "") ∧
      (capture titleRE "" 0 = none → capture studyTitleRE "" 0 = none →
        r.title = "") ∧
      (capture libraryStrategyRE "" 0 = none → r.library_strategy = "") ∧
      (capture libraryLayoutRE "" 0 = none → r.library_layout = "") ∧
      (capture instrumentModelRE "" 0 = none → r.instrument_model = "") ∧
      (capture taxonIdRE "" 0 = none → r.taxon_id = 0) ∧
      (capture scientificNameRE "" 0 = none → r.scientific_name = "") ∧
      (capture nreadsRE "" 0 = none → r.nreads = 0) ∧
      (capture readAverageRE "" 0 = none → r.read_average = 0) ∧
      (runSearch "" = none →
        r.run_accession = "" ∧ r.total_spots = 0 ∧ r.total_bases = 0 ∧
        r.size = 0 ∧ r.published = "") :=
  extract_total_amended "" (by decide) (by decide) (by decide) (by decide)
